import Mathlib

/-!
Shallow embedding of the router history implementation (src/unnamed/part_000).
Strings are modelled as lists of characters, with the JS substring, slice and
indexOf operations made explicit.  The single-threaded createHistory core is
modelled as explicit state passing over a CoreState record; closures stored in
the task queue are represented by the five task shapes the public operations
enqueue, and the two continuations a blocker receives (retry, cancel) are the
operations tryFlush and cancelBlockers applied to the state current at the
moment the blocker acts, which is exactly what the source closures capture.
Ghost counters (installs, teardowns, notifyLog) record how often the adapter
subscription is installed or torn down and which listener sets get notified;
they change nothing observable and only instrument the source behaviour.
-/

namespace Router

/-- JS s.indexOf(c): index of the first occurrence of character c in s, or -1
when absent (part_000 lines 265-266). -/
def jsIndexOf : List Char → Char → Int
  | [], _ => -1
  | a :: s, c =>
      if a = c then 0
      else if jsIndexOf s c = -1 then -1 else jsIndexOf s c + 1

/-- RouterLocation (part_000 lines 17-26): href, pathname, search and hash
components plus an opaque state payload of type α. -/
structure Loc (α : Type) where
  href : List Char
  pathname : List Char
  search : List Char
  hash : List Char
  state : α
  deriving DecidableEq

/-- parseLocation (part_000 lines 264-287).  JS substring(0, e) is take e,
substring(i) for 0 ≤ i is drop i, and slice(s, e) for 0 ≤ s ≤ e or s > e is
drop s of take e (empty when s is past e), so each field below transcribes the
corresponding source expression, including the hashIndex > 0 guard for the
pathname boundary and the hashIndex = -1 test inside the search slice. -/
def parseLocation {α : Type} (href : List Char) (st : α) : Loc α :=
  let hashIndex := jsIndexOf href '#'
  let searchIndex := jsIndexOf href '?'
  { href := href
    pathname := href.take
      (if hashIndex > 0 then
        (if searchIndex > 0 then min hashIndex searchIndex else hashIndex).toNat
      else if searchIndex > 0 then searchIndex.toNat else href.length)
    hash := if hashIndex > -1 then href.drop hashIndex.toNat else []
    search :=
      if searchIndex > -1 then
        if hashIndex = -1 then href.drop searchIndex.toNat
        else (href.take hashIndex.toNat).drop searchIndex.toNat
      else []
    state := st }

/-- State payload as stored by the adapters: either the initial empty object
or a pair of the caller supplied payload (opaque, modelled as a Nat) and the
random key attached on every committed push or replace (part_000 lines
239-242; randomness is modelled by a fresh counter value, the spec notes the
key value itself is irrelevant to correctness). -/
abbrev LocState : Type := Option (Nat × Nat)

/-- The five closure shapes the public operations enqueue (part_000 lines
110-134): each queued closure calls exactly one adapter primitive with the
captured arguments. -/
inductive Task where
  | push (path : List Char) (st : Nat)
  | replace (path : List Char) (st : Nat)
  | go (n : Int)
  | back
  | forward
  deriving DecidableEq

/-- Whether a task is a push or replace, i.e. goes through the history
mutation primitives the browser adapter wraps (part_000 lines 173-184). -/
def isPushOrReplace : Task → Bool
  | Task.push _ _ => true
  | Task.replace _ _ => true
  | _ => false

/-- The opts record handed to createHistory (part_000 lines 46-54): the
adapter primitives over an adapter state type σ.  The listener field is the
truthiness of opts.listener: true when the adapter supplies a native change
subscription (browser, hash), false for the memory adapter. -/
structure Adapter (σ : Type) where
  getLocation : σ → Loc LocState
  listener : Bool
  pushState : List Char → Nat → σ → σ
  replaceState : List Char → Nat → σ → σ
  goFn : Int → σ → σ
  backFn : σ → σ
  forwardFn : σ → σ

/-- The mutable closure state of createHistory (part_000 lines 56-60) plus
ghost instrumentation.  listeners is the Set of listener callbacks (callback
identity modelled by Nat, insertion order kept, no duplicates by
construction); blockers and queue are the source arrays; subscribed says
whether the platform subscription installed by opts.listener is currently
active; unloadGuard says whether the beforeunload guard is registered;
unsubActive says whether the stored unsub variable currently holds a real
adapter teardown (rather than the initial or non-native no-op closure).
installs and teardowns count invocations of opts.listener and of the stored
unsub teardown; notifyLog appends, for every onUpdate call, the listener set
that gets invoked (each member called exactly once by Set.forEach). -/
structure CoreState (σ : Type) where
  adapter : σ
  loc : Loc LocState
  listeners : List Nat
  blockers : List Nat
  queue : List Task
  subscribed : Bool
  unloadGuard : Bool
  unsubActive : Bool
  installs : Nat
  teardowns : Nat
  notifyLog : List (List Nat)
  deriving DecidableEq

variable {σ : Type}

/-- Dispatch a queued closure to its adapter primitive (part_000 lines
110-134). -/
def runTask (A : Adapter σ) (t : Task) (a : σ) : σ :=
  match t with
  | Task.push p st => A.pushState p st a
  | Task.replace p st => A.replaceState p st a
  | Task.go n => A.goFn n a
  | Task.back => A.backFn a
  | Task.forward => A.forwardFn a

/-- onUpdate (part_000 lines 85-88): recompute the cached location from the
adapter and invoke every registered listener (logged as one notifyLog entry
holding the listener set). -/
def onUpdate (A : Adapter σ) (s : CoreState σ) : CoreState σ :=
  { s with loc := A.getLocation s.adapter
           notifyLog := s.notifyLog ++ [s.listeners] }

/-- Execute one queued closure.  The adapter primitive runs; when the adapter
is a native one (browser or hash) whose subscription is installed, a push or
replace goes through the wrapped history primitive which synchronously calls
onUpdate after the mutation (part_000 lines 173-184); go, back and forward
trigger only the asynchronous platform popstate event, outside this
synchronous step. -/
def execTask (A : Adapter σ) (s : CoreState σ) (t : Task) : CoreState σ :=
  let s1 := { s with adapter := runTask A t s.adapter }
  if A.listener && s.subscribed && isPushOrReplace t then onUpdate A s1 else s1

/-- The final step of tryFlush (part_000 lines 75-77): adapters without a
native change event get a synthesized notification after the drain. -/
def flushEnd (A : Adapter σ) (s : CoreState σ) : CoreState σ :=
  if A.listener then s else onUpdate A s

/-- tryFlush (part_000 lines 62-78).  When the blocker list is non-empty the
first blocker is invoked with the retry continuation (tryFlush itself) and
the cancel continuation (cancelBlockers below) and flushing halts with the
state unchanged; a blocker acting later is modelled by applying the
corresponding continuation to the state at that moment, which is what the
source closures over the mutable variables compute.  With no blockers the
queue is drained front to back and, for adapters without a native listener,
onUpdate is synthesized. -/
def tryFlush (A : Adapter σ) (s : CoreState σ) : CoreState σ :=
  if s.blockers = [] then
    flushEnd A (s.queue.foldl (execTask A) { s with queue := [] })
  else s

/-- The cancel continuation handed to the active blocker (part_000 lines
64-67): empty the whole blocker list and remove the beforeunload guard
(stopBlocking); the queue is left untouched and is not drained. -/
def cancelBlockers (s : CoreState σ) : CoreState σ :=
  { s with blockers := [], unloadGuard := false }

/-- queueTask (part_000 lines 80-83): append the closure and attempt a
flush. -/
def queueTask (A : Adapter σ) (t : Task) (s : CoreState σ) : CoreState σ :=
  tryFlush A { s with queue := s.queue ++ [t] }

/-- push (part_000 lines 110-114). -/
def pushOp (A : Adapter σ) (path : List Char) (st : Nat) (s : CoreState σ) :
    CoreState σ :=
  queueTask A (Task.push path st) s

/-- replace (part_000 lines 115-119). -/
def replaceOp (A : Adapter σ) (path : List Char) (st : Nat) (s : CoreState σ) :
    CoreState σ :=
  queueTask A (Task.replace path st) s

/-- go (part_000 lines 120-124). -/
def goOp (A : Adapter σ) (n : Int) (s : CoreState σ) : CoreState σ :=
  queueTask A (Task.go n) s

/-- back (part_000 lines 125-129). -/
def backOp (A : Adapter σ) (s : CoreState σ) : CoreState σ :=
  queueTask A Task.back s

/-- forward (part_000 lines 130-134). -/
def forwardOp (A : Adapter σ) (s : CoreState σ) : CoreState σ :=
  queueTask A Task.forward s

/-- JS Set.add: append when absent, keep insertion order, no duplicates. -/
def addToSet (cb : Nat) (l : List Nat) : List Nat :=
  if cb ∈ l then l else l ++ [cb]

/-- listen (part_000 lines 94-108): when the listener set is empty, install
the platform subscription for native adapters (storing its teardown in the
unsub variable) or store a no-op unsub for non-native adapters; then add the
callback to the set. -/
def listen (A : Adapter σ) (cb : Nat) (s : CoreState σ) : CoreState σ :=
  let s1 :=
    if s.listeners = [] then
      if A.listener then
        { s with subscribed := true, unsubActive := true,
                 installs := s.installs + 1 }
      else
        { s with unsubActive := false }
    else s
  { s1 with listeners := addToSet cb s1.listeners }

/-- The unsubscribe closure returned by listen (part_000 lines 103-108):
delete the callback from the set and, when the set is now empty, call the
current unsub variable; when that variable holds a native teardown, the
subscription is deactivated and the teardown invocation is counted.  Note
the source calls unsub unconditionally whenever the set is empty after the
delete, including on a repeated call of the same unsubscribe closure. -/
def unlisten (cb : Nat) (s : CoreState σ) : CoreState σ :=
  let l := s.listeners.filter (fun x => x != cb)
  let s1 := { s with listeners := l }
  if l = [] then
    if s1.unsubActive then
      { s1 with subscribed := false, teardowns := s1.teardowns + 1 }
    else s1
  else s1

/-- block (part_000 lines 136-143): append the blocker; on the 0 to 1
transition install the beforeunload guard. -/
def block (b : Nat) (s : CoreState σ) : CoreState σ :=
  { s with blockers := s.blockers ++ [b]
           unloadGuard := if s.blockers = [] then true else s.unloadGuard }

/-- The unblock closure returned by block (part_000 lines 145-151): filter
this blocker out (function identity modelled by the Nat id) and, when the
list becomes empty, remove the beforeunload guard. -/
def unblock (b : Nat) (s : CoreState σ) : CoreState σ :=
  let bl := s.blockers.filter (fun x => x != b)
  { s with blockers := bl
           unloadGuard := if bl = [] then false else s.unloadGuard }

/-- The closure state right after createHistory runs (part_000 lines 56-60):
location initialized from the adapter, empty listener set, blocker list and
queue, the unsub variable holding the initial no-op. -/
def initCore (A : Adapter σ) (a0 : σ) : CoreState σ :=
  { adapter := a0
    loc := A.getLocation a0
    listeners := []
    blockers := []
    queue := []
    subscribed := false
    unloadGuard := false
    unsubActive := false
    installs := 0
    teardowns := 0
    notifyLog := [] }

/-- Issue a sequence of public operations, each being queueTask of its task
(part_000 lines 110-134 all delegate to queueTask). -/
def issueAll (A : Adapter σ) (ts : List Task) (s : CoreState σ) : CoreState σ :=
  ts.foldl (fun acc t => queueTask A t acc) s

/-- Add several listeners in order through listen. -/
def listenAll (A : Adapter σ) (cbs : List Nat) (s : CoreState σ) : CoreState σ :=
  cbs.foldl (fun acc cb => listen A cb acc) s

/-- Call the unsubscribe closures of the given callbacks in order. -/
def unlistenAll (us : List Nat) (s : CoreState σ) : CoreState σ :=
  us.foldl (fun acc u => unlisten u acc) s

/-- The backing state of createMemoryHistory (part_000 lines 229-231): the
entry array, the cursor (an Int, since the source decrements it without a
lower bound), the current state object with its key counter, plus a ghost log
of the deltas the memory adapter forwards to the global window.history.go
(part_000 line 259). -/
structure MemState where
  entries : List (List Char)
  index : Int
  currentState : LocState
  nextKey : Nat
  windowGoCalls : List Int
  deriving DecidableEq

/-- The entry the memory getLocation reads (part_000 line 233).  In JS,
entries[index]! outside the array bounds yields undefined and parseLocation
would then throw on indexOf; the model returns the empty string there, a
value no verified statement depends on. -/
def memEntry (m : MemState) : List Char :=
  if 0 ≤ m.index then m.entries.getD m.index.toNat [] else []

/-- The memory adapter (part_000 lines 221-262): pushState appends and
advances the cursor, replaceState overwrites the entry at the cursor (the JS
assignment entries[index] = path touches no array element when the index is
negative), back decrements without clamping, forward clamps at the last
index, go delegates to the global window.history.go and leaves the memory
state untouched, and there is no native change listener. -/
def memAdapter : Adapter MemState :=
  { getLocation := fun m => parseLocation (memEntry m) m.currentState
    listener := false
    pushState := fun p st m =>
      { m with currentState := some (st, m.nextKey)
               nextKey := m.nextKey + 1
               entries := m.entries ++ [p]
               index := m.index + 1 }
    replaceState := fun p st m =>
      { m with currentState := some (st, m.nextKey)
               nextKey := m.nextKey + 1
               entries :=
                 if 0 ≤ m.index then m.entries.set m.index.toNat p
                 else m.entries }
    goFn := fun n m => { m with windowGoCalls := m.windowGoCalls ++ [n] }
    backFn := fun m => { m with index := m.index - 1 }
    forwardFn := fun m =>
      { m with index := min (m.index + 1) ((m.entries.length : Int) - 1) } }

/-- The initial MemState built by createMemoryHistory (part_000 lines
229-231): initialIndex defaults to the last entry. -/
def memInit (initialEntries : List (List Char)) (initialIndex : Option Int) :
    MemState :=
  { entries := initialEntries
    index := initialIndex.getD ((initialEntries.length : Int) - 1)
    currentState := none
    nextKey := 0
    windowGoCalls := [] }

/-- A minimal platform model for the browser adapter shape (part_000 lines
156-212), abstracting the window as the spec directs for testing the core
with a fake adapter: the adapter state is the current href, pushState and
replaceState install the new href (identity createHref), the platform back,
forward and go navigation effects are outside the synchronous model, and the
adapter declares the native change listener capability. -/
def urlAdapter : Adapter (List Char) :=
  { getLocation := fun h => parseLocation h none
    listener := true
    pushState := fun p _ _ => p
    replaceState := fun p _ _ => p
    goFn := fun _ h => h
    backFn := fun h => h
    forwardFn := fun h => h }

/-- An instrumented adapter recording the order in which the adapter
primitives are invoked, used to observe commit order; it has no native
listener, like the memory adapter. -/
def logAdapter : Adapter (List Task) :=
  { getLocation := fun _ => parseLocation [] none
    listener := false
    pushState := fun p st l => l ++ [Task.push p st]
    replaceState := fun p st l => l ++ [Task.replace p st]
    goFn := fun n l => l ++ [Task.go n]
    backFn := fun l => l ++ [Task.back]
    forwardFn := fun l => l ++ [Task.forward] }

/-! ## Theorems -/

/-- First-occurrence index is never below -1. -/
theorem jsIndexOf_ge (s : List Char) (c : Char) : -1 ≤ jsIndexOf s c := by
  induction s with
  | nil => simp [jsIndexOf]
  | cons a t ih =>
      simp only [jsIndexOf]
      split
      · omega
      · split
        · omega
        · omega

/-- C2 (amended): for every href whose first character is neither the hash
mark nor the question mark (equivalently, neither index is 0), the Location
returned by parseLocation satisfies href = pathname ++ search ++ hash with no
character duplicated or dropped.  When the href starts with one of the two
delimiters, the pathname boundary guards hashIndex > 0 and searchIndex > 0
treat the delimiter as absent and the invariant fails (see the
counterexample). -/
theorem c2_href_concat {α : Type} (href : List Char) (st : α)
    (h1 : jsIndexOf href '#' ≠ 0) (h2 : jsIndexOf href '?' ≠ 0) :
    (parseLocation href st).pathname ++ (parseLocation href st).search ++
      (parseLocation href st).hash = href := by
  have hge := jsIndexOf_ge href '#'
  have sge := jsIndexOf_ge href '?'
  simp only [parseLocation]
  rcases (show jsIndexOf href '#' = -1 ∨ 0 < jsIndexOf href '#' by omega) with hh | hh
  · rcases (show jsIndexOf href '?' = -1 ∨ 0 < jsIndexOf href '?' by omega) with hs | hs
    · have hna : ¬ ((0:Int) < jsIndexOf href '#') := by omega
      have hns : ¬ ((0:Int) < jsIndexOf href '?') := by omega
      have hnh : ¬ ((-1:Int) < jsIndexOf href '#') := by omega
      have hnsr : ¬ ((-1:Int) < jsIndexOf href '?') := by omega
      rw [if_neg hna, if_neg hns, if_neg hnsr, if_neg hnh]
      simp
    · have hna : ¬ ((0:Int) < jsIndexOf href '#') := by omega
      have hnh : ¬ ((-1:Int) < jsIndexOf href '#') := by omega
      have hpsr : (-1:Int) < jsIndexOf href '?' := by omega
      rw [if_neg hna, if_pos hs, if_neg hnh, if_pos hpsr, if_pos hh]
      simp [List.take_append_drop]
  · rcases (show jsIndexOf href '?' = -1 ∨ 0 < jsIndexOf href '?' by omega) with hs | hs
    · have hns : ¬ ((0:Int) < jsIndexOf href '?') := by omega
      have hprh : (-1:Int) < jsIndexOf href '#' := by omega
      have hnsr : ¬ ((-1:Int) < jsIndexOf href '?') := by omega
      rw [if_pos hh, if_neg hns, if_neg hnsr, if_pos hprh]
      simp [List.take_append_drop]
    · have hprh : (-1:Int) < jsIndexOf href '#' := by omega
      have hpsr : (-1:Int) < jsIndexOf href '?' := by omega
      have hne : ¬ (jsIndexOf href '#' = -1) := by omega
      rw [if_pos hh, if_pos hs, if_pos hprh, if_pos hpsr, if_neg hne]
      rcases le_or_lt (jsIndexOf href '?') (jsIndexOf href '#') with hle | hlt
      · rw [min_eq_right hle]
        have hts : (jsIndexOf href '?').toNat ≤ (jsIndexOf href '#').toNat :=
          Int.toNat_le_toNat hle
        have e1 : (href.take (jsIndexOf href '#').toNat).take (jsIndexOf href '?').toNat
            = href.take (jsIndexOf href '?').toNat := by
          rw [List.take_take, Nat.min_eq_left hts]
        have e2 : href.take (jsIndexOf href '?').toNat ++
            (href.take (jsIndexOf href '#').toNat).drop (jsIndexOf href '?').toNat
            = href.take (jsIndexOf href '#').toNat := by
          conv_lhs => rw [← e1]
          exact List.take_append_drop _ _
        rw [e2, List.take_append_drop]
      · rw [min_eq_left (le_of_lt hlt)]
        have hlen : (href.take (jsIndexOf href '#').toNat).length ≤
            (jsIndexOf href '?').toNat := by
          have hl := List.length_take ((jsIndexOf href '#').toNat) href
          have h2a : (jsIndexOf href '#').toNat ≤ (jsIndexOf href '?').toNat :=
            Int.toNat_le_toNat (le_of_lt hlt)
          omega
        rw [List.drop_eq_nil_of_le hlen]
        simp [List.take_append_drop]

/-- C2 counterexample: for the href consisting of a hash mark at position 0
followed by a letter, the concatenation of the parsed components duplicates
the whole string (pathname and hash both hold it), so the claimed invariant
fails at a hash at position 0. -/
theorem c2_counterexample :
    ¬ ((parseLocation ['#','a'] (0:Nat)).pathname ++ (parseLocation ['#','a'] (0:Nat)).search ++
      (parseLocation ['#','a'] (0:Nat)).hash = ['#','a']) := by decide

/-- C2 witness: the amended invariant evaluated on a concrete href with both
search and hash present. -/
theorem c2_witness :
    jsIndexOf "/a?b=1#c".toList '#' ≠ 0 ∧ jsIndexOf "/a?b=1#c".toList '?' ≠ 0 ∧
    (parseLocation "/a?b=1#c".toList (0:Nat)).pathname ++
      (parseLocation "/a?b=1#c".toList (0:Nat)).search ++
      (parseLocation "/a?b=1#c".toList (0:Nat)).hash = "/a?b=1#c".toList :=
  ⟨by decide, by decide, c2_href_concat "/a?b=1#c".toList 0 (by decide) (by decide)⟩

/-- Enqueueing while a blocker is pending only appends the task: tryFlush halts at the blocker and changes nothing. -/
theorem queueTask_blocked (A : Adapter σ) (t : Task) (s : CoreState σ)
    (h : s.blockers ≠ []) :
    queueTask A t s = { s with queue := s.queue ++ [t] } := by
  simp [queueTask, tryFlush, h]

/-- C1 (amended): with exactly one blocker installed, push(A) leaves the
public location unchanged, the adapter untouched and the task push(A) queued,
as long as the blocker has called neither continuation; and after the blocker
is removed through its unblock closure and the retry continuation (tryFlush)
runs, the pushState for A has been committed and the location recomputed from
the adapter.  A retry with the blocker still installed merely re-invokes the
blocker and changes nothing (see the counterexample), so removal must come
first; the statement is for an adapter without native listener capability
(such as the memory adapter), whose flush synthesizes the recompute. -/
theorem c1_blocked_push_then_unblock_retry (A : Adapter σ) (a0 : σ)
    (b : Nat) (p : List Char) (st : Nat) (hA : A.listener = false) :
    ((pushOp A p st (block b (initCore A a0))).loc = A.getLocation a0 ∧
     (pushOp A p st (block b (initCore A a0))).adapter = a0 ∧
     (pushOp A p st (block b (initCore A a0))).queue = [Task.push p st]) ∧
    ((tryFlush A (unblock b (pushOp A p st (block b (initCore A a0))))).adapter
        = A.pushState p st a0 ∧
     (tryFlush A (unblock b (pushOp A p st (block b (initCore A a0))))).loc
        = A.getLocation (A.pushState p st a0) ∧
     (tryFlush A (unblock b (pushOp A p st (block b (initCore A a0))))).queue = []) := by
  refine ⟨⟨?_, ?_, ?_⟩, ?_, ?_, ?_⟩ <;>
    simp [pushOp, queueTask, tryFlush, block, initCore, unblock, flushEnd,
      execTask, runTask, onUpdate, hA]

/-- C4: with a blocker installed and push(A) issued, the cancel continuation
empties the blocker list atomically, uninstalls the unload guard, leaves the
location unchanged, leaves the adapter untouched (the queued push neither
executed nor silently applied) and leaves the queued push(A) in the task
queue undiscarded; a repeated cancel is idempotent. -/
theorem c4_cancel_discards_blockers_keeps_queue (A : Adapter σ) (a0 : σ)
    (b : Nat) (p : List Char) (st : Nat) :
    (cancelBlockers (pushOp A p st (block b (initCore A a0)))).blockers = [] ∧
    (cancelBlockers (pushOp A p st (block b (initCore A a0)))).unloadGuard = false ∧
    (cancelBlockers (pushOp A p st (block b (initCore A a0)))).loc = A.getLocation a0 ∧
    (cancelBlockers (pushOp A p st (block b (initCore A a0)))).adapter = a0 ∧
    (cancelBlockers (pushOp A p st (block b (initCore A a0)))).queue = [Task.push p st] ∧
    cancelBlockers (cancelBlockers (pushOp A p st (block b (initCore A a0))))
      = cancelBlockers (pushOp A p st (block b (initCore A a0))) := by
  refine ⟨?_, ?_, ?_, ?_, ?_, ?_⟩ <;>
    simp [cancelBlockers, pushOp, queueTask, tryFlush, block, initCore]

/-- C5 (amended): after a committed navigation the public location equals the
Location recomputed from the adapter when either the adapter has no native
listener capability (the flush synthesizes onUpdate), or it has one, its
subscription is active (at least one listener since the first listen wrapped
the history primitives) and the navigation is a push or replace (which the
wrapped primitive reports synchronously).  For a native-capability adapter
with zero registered listeners the wrap is not installed and the cached
location goes stale (see the counterexample). -/
theorem c5_location_recomputed (A : Adapter σ) (t : Task) (s : CoreState σ)
    (hb : s.blockers = []) (hq : s.queue = [])
    (h : A.listener = false ∨
         (A.listener = true ∧ s.subscribed = true ∧ isPushOrReplace t = true)) :
    (queueTask A t s).loc = A.getLocation (queueTask A t s).adapter := by
  rcases h with h | ⟨h1, h2, h3⟩
  · simp [queueTask, tryFlush, hb, hq, flushEnd, execTask, onUpdate, h]
  · simp [queueTask, tryFlush, hb, hq, flushEnd, execTask, onUpdate, h1, h2, h3]

/-- C5 counterexample: with the native-capability url adapter and zero
registered listeners, a committed push leaves the public location different
from the Location recomputed from the adapter. -/
theorem c5_counterexample :
    (pushOp urlAdapter "/A".toList 0 (initCore urlAdapter "/x".toList)).loc ≠
      urlAdapter.getLocation
        (pushOp urlAdapter "/A".toList 0 (initCore urlAdapter "/x".toList)).adapter := by
  decide

/-- C5 witness: the amended statement on the memory adapter. -/
theorem c5_witness :
    (initCore memAdapter (memInit ["/x".toList] none)).blockers = [] ∧
    (initCore memAdapter (memInit ["/x".toList] none)).queue = [] ∧
    (queueTask memAdapter (Task.push "/A".toList 0)
        (initCore memAdapter (memInit ["/x".toList] none))).loc =
      memAdapter.getLocation
        (queueTask memAdapter (Task.push "/A".toList 0)
          (initCore memAdapter (memInit ["/x".toList] none))).adapter :=
  ⟨rfl, rfl,
    c5_location_recomputed memAdapter (Task.push "/A".toList 0) _ rfl rfl (Or.inl rfl)⟩

/-- The instrumented ordering adapter declares no native listener. -/
theorem logAdapter_listener : logAdapter.listener = false := rfl

/-- Each primitive of the ordering adapter appends its own task. -/
theorem runTask_log (t : Task) (l : List Task) : runTask logAdapter t l = l ++ [t] := by
  cases t <;> rfl

/-- Draining a queue against the ordering adapter commits the queued tasks in order and touches nothing else. -/
theorem drain_log (q : List Task) :
    ∀ s : CoreState (List Task),
      q.foldl (execTask logAdapter) s = { s with adapter := s.adapter ++ q } := by
  induction q with
  | nil => intro s; simp
  | cons t q ih =>
      intro s
      have he : execTask logAdapter s t = { s with adapter := s.adapter ++ [t] } := by
        simp [execTask, runTask_log, logAdapter_listener]
      simp [List.foldl_cons, he, ih]

/-- Operations issued while a blocker is pending accumulate in the queue in order. -/
theorem issueAll_blocked (A : Adapter σ) (ts : List Task) :
    ∀ s : CoreState σ, s.blockers ≠ [] →
      issueAll A ts s = { s with queue := s.queue ++ ts } := by
  induction ts with
  | nil => intro s h; simp [issueAll]
  | cons t ts ih =>
      intro s h
      have h2 : ({ s with queue := s.queue ++ [t] } : CoreState σ).blockers ≠ [] := h
      simp [issueAll] at ih ⊢
      rw [queueTask_blocked A t s h, ih _ h2]
      simp

/-- C6: queued navigations run FIFO: push(A) then push(B) with no blocker
commits the mutation of A strictly before that of B in the adapter; and any
sequence of operations enqueued while a blocker is pending is preserved in
relative order in the queue, commits nothing while blocked or on cancel
alone, and commits exactly in order once the blocker list is empty and a
flush is retried. -/
theorem c6_fifo :
    (∀ pa sta pb stb,
      (pushOp logAdapter pb stb (pushOp logAdapter pa sta (initCore logAdapter []))).adapter
        = [Task.push pa sta, Task.push pb stb]) ∧
    (∀ (ts : List Task) (s : CoreState (List Task)), s.blockers ≠ [] →
      issueAll logAdapter ts s = { s with queue := s.queue ++ ts } ∧
      (cancelBlockers (issueAll logAdapter ts s)).adapter = s.adapter ∧
      (tryFlush logAdapter (cancelBlockers (issueAll logAdapter ts s))).adapter
        = s.adapter ++ s.queue ++ ts) := by
  constructor
  · intro pa sta pb stb
    simp [pushOp, queueTask, tryFlush, initCore, flushEnd, execTask, runTask_log,
      logAdapter_listener, onUpdate]
  · intro ts s h
    refine ⟨issueAll_blocked logAdapter ts s h, ?_, ?_⟩
    · rw [issueAll_blocked logAdapter ts s h]; rfl
    · rw [issueAll_blocked logAdapter ts s h]
      simp [cancelBlockers, tryFlush, flushEnd, drain_log, onUpdate, logAdapter_listener,
        List.append_assoc]

/-- C6 witness: the blocked-ordering statement at a concrete blocked state and task list. -/
theorem c6_witness :
    (block 3 (initCore logAdapter [])).blockers ≠ [] ∧
    (issueAll logAdapter [Task.push "/A".toList 0, Task.go 2] (block 3 (initCore logAdapter []))
      = { (block 3 (initCore logAdapter [])) with
            queue := (block 3 (initCore logAdapter [])).queue ++ [Task.push "/A".toList 0, Task.go 2] } ∧
     (cancelBlockers (issueAll logAdapter [Task.push "/A".toList 0, Task.go 2]
        (block 3 (initCore logAdapter [])))).adapter = (block 3 (initCore logAdapter [])).adapter ∧
     (tryFlush logAdapter (cancelBlockers (issueAll logAdapter [Task.push "/A".toList 0, Task.go 2]
        (block 3 (initCore logAdapter []))))).adapter
        = (block 3 (initCore logAdapter [])).adapter ++ (block 3 (initCore logAdapter [])).queue
            ++ [Task.push "/A".toList 0, Task.go 2]) :=
  ⟨by decide, c6_fifo.2 [Task.push "/A".toList 0, Task.go 2] _ (by decide)⟩

/-- C1 counterexample: with the blocker still installed, the retry
continuation (tryFlush) re-invokes the blocker and halts, so after the
blocker calls retry alone the location still shows the initial href, not the
pushed one: the claim as stated fails. -/
theorem c1_counterexample :
    (tryFlush memAdapter (pushOp memAdapter "/A".toList 0
        (block 7 (initCore memAdapter (memInit ["/x".toList] none))))).loc.href
      = "/x".toList ∧
    ¬ ((tryFlush memAdapter (pushOp memAdapter "/A".toList 0
        (block 7 (initCore memAdapter (memInit ["/x".toList] none))))).loc.href
      = "/A".toList) := by
  constructor
  · decide
  · decide

/-- C1 witness: the amended statement instantiated on the memory adapter. -/
theorem c1_witness :
    memAdapter.listener = false ∧
    (((pushOp memAdapter "/A".toList 0 (block 7 (initCore memAdapter (memInit ["/x".toList] none)))).loc
        = memAdapter.getLocation (memInit ["/x".toList] none) ∧
      (pushOp memAdapter "/A".toList 0 (block 7 (initCore memAdapter (memInit ["/x".toList] none)))).adapter
        = memInit ["/x".toList] none ∧
      (pushOp memAdapter "/A".toList 0 (block 7 (initCore memAdapter (memInit ["/x".toList] none)))).queue
        = [Task.push "/A".toList 0]) ∧
     ((tryFlush memAdapter (unblock 7 (pushOp memAdapter "/A".toList 0
          (block 7 (initCore memAdapter (memInit ["/x".toList] none)))))).adapter
        = memAdapter.pushState "/A".toList 0 (memInit ["/x".toList] none) ∧
      (tryFlush memAdapter (unblock 7 (pushOp memAdapter "/A".toList 0
          (block 7 (initCore memAdapter (memInit ["/x".toList] none)))))).loc
        = memAdapter.getLocation (memAdapter.pushState "/A".toList 0 (memInit ["/x".toList] none)) ∧
      (tryFlush memAdapter (unblock 7 (pushOp memAdapter "/A".toList 0
          (block 7 (initCore memAdapter (memInit ["/x".toList] none)))))).queue = [])) :=
  ⟨rfl, c1_blocked_push_then_unblock_retry memAdapter (memInit ["/x".toList] none) 7
    "/A".toList 0 rfl⟩

/-- One queued closure never touches the listener set or the subscription, and notifies exactly when the wrapped native primitive fires. -/
theorem execTask_fields (A : Adapter σ) (s : CoreState σ) (t : Task) :
    (execTask A s t).listeners = s.listeners ∧
    (execTask A s t).subscribed = s.subscribed ∧
    (execTask A s t).notifyLog = s.notifyLog ++
      (if A.listener && s.subscribed && isPushOrReplace t then [s.listeners] else []) := by
  cases hc : (A.listener && s.subscribed && isPushOrReplace t) <;>
    simp [execTask, onUpdate, hc]

/-- Draining a queue: the notification log grows by one entry per push or replace task when the adapter is native and subscribed, and not at all otherwise; listeners and subscription are untouched. -/
theorem drain_notify (A : Adapter σ) (q : List Task) :
    ∀ s : CoreState σ,
      (q.foldl (execTask A) s).notifyLog
          = s.notifyLog ++
            (if A.listener && s.subscribed then
              (q.filter (fun t => isPushOrReplace t)).map (fun _ => s.listeners)
            else []) ∧
      (q.foldl (execTask A) s).listeners = s.listeners ∧
      (q.foldl (execTask A) s).subscribed = s.subscribed := by
  induction q with
  | nil => intro s; simp
  | cons t q ih =>
      intro s
      obtain ⟨e1, e2, e3⟩ := execTask_fields A s t
      obtain ⟨i1, i2, i3⟩ := ih (execTask A s t)
      refine ⟨?_, ?_, ?_⟩
      · rw [List.foldl_cons, i1, e1, e2, e3]
        cases hA : A.listener <;> cases hS : s.subscribed <;>
          cases hT : isPushOrReplace t <;>
            simp [hT, List.filter_cons]
      · rw [List.foldl_cons, i2, e1]
      · rw [List.foldl_cons, i3, e2]

/-- C7: for a flush with no blocker pending, an adapter without native
change-event capability gets exactly one synthesized notification after the
drain, carrying every registered listener exactly once (the listener set is
invoked once per onUpdate); an adapter with native capability gets no
synthetic notification from the flush itself: its log grows only through the
native wrapped-primitive path, exactly once per push or replace task when
subscribed, so no listener is notified twice for one change. -/
theorem c7_flush_notifications (A : Adapter σ) (s : CoreState σ)
    (hb : s.blockers = []) :
    (A.listener = false →
      (tryFlush A s).notifyLog = s.notifyLog ++ [s.listeners]) ∧
    (A.listener = true →
      (tryFlush A s).notifyLog = s.notifyLog ++
        (if s.subscribed then
          (s.queue.filter (fun t => isPushOrReplace t)).map (fun _ => s.listeners)
        else [])) := by
  obtain ⟨d1, d2, d3⟩ := drain_notify A s.queue ({ s with queue := [] } : CoreState σ)
  rw [hb] at d1 d2 d3
  constructor
  · intro hA
    simp only [tryFlush, hb, if_pos, flushEnd, hA, Bool.false_eq_true, if_false,
      onUpdate]
    rw [d2, d1]
    simp [hA]
  · intro hA
    simp only [tryFlush, hb, if_pos, flushEnd, hA, if_true]
    rw [d1]
    simp [hA]

/-- C7 witness: the statement at a concrete memory-history state. -/
theorem c7_witness :
    (initCore memAdapter (memInit ["/x".toList] none)).blockers = [] ∧
    ((memAdapter.listener = false →
      (tryFlush memAdapter (initCore memAdapter (memInit ["/x".toList] none))).notifyLog
        = (initCore memAdapter (memInit ["/x".toList] none)).notifyLog ++
            [(initCore memAdapter (memInit ["/x".toList] none)).listeners]) ∧
     (memAdapter.listener = true →
      (tryFlush memAdapter (initCore memAdapter (memInit ["/x".toList] none))).notifyLog
        = (initCore memAdapter (memInit ["/x".toList] none)).notifyLog ++
            (if (initCore memAdapter (memInit ["/x".toList] none)).subscribed then
              ((initCore memAdapter (memInit ["/x".toList] none)).queue.filter
                (fun t => isPushOrReplace t)).map
                  (fun _ => (initCore memAdapter (memInit ["/x".toList] none)).listeners)
            else []))) :=
  ⟨rfl, c7_flush_notifications memAdapter (initCore memAdapter (memInit ["/x".toList] none)) rfl⟩

theorem addToSet_ne_nil (cb : Nat) (l : List Nat) (h : l ≠ []) :
    addToSet cb l ≠ [] := by
  unfold addToSet
  split
  · exact h
  · simp

theorem addToSet_nodup (cb : Nat) (l : List Nat) (h : l.Nodup) :
    (addToSet cb l).Nodup := by
  unfold addToSet
  split
  · exact h
  · next hmem =>
      rw [List.nodup_append]
      refine ⟨h, List.nodup_singleton cb, ?_⟩
      intro a ha hb
      simp at hb
      exact hmem (hb ▸ ha)

theorem setFold_nodup (cbs : List Nat) :
    ∀ l : List Nat, l.Nodup → (cbs.foldl (fun l cb => addToSet cb l) l).Nodup := by
  induction cbs with
  | nil => intro l h; exact h
  | cons cb cbs ih => intro l h; exact ih _ (addToSet_nodup cb l h)

theorem setFold_ne_nil (cbs : List Nat) :
    ∀ l : List Nat, l ≠ [] → cbs.foldl (fun l cb => addToSet cb l) l ≠ [] := by
  induction cbs with
  | nil => intro l h; exact h
  | cons cb cbs ih => intro l h; exact ih _ (addToSet_ne_nil cb l h)

theorem listen_first_native (A : Adapter σ) (cb : Nat) (s : CoreState σ)
    (hA : A.listener = true) (h : s.listeners = []) :
    listen A cb s = { s with listeners := [cb], subscribed := true,
                             unsubActive := true, installs := s.installs + 1 } := by
  simp [listen, h, hA, addToSet]

theorem listen_nonempty (A : Adapter σ) (cb : Nat) (s : CoreState σ)
    (h : s.listeners ≠ []) :
    listen A cb s = { s with listeners := addToSet cb s.listeners } := by
  simp [listen, h]

theorem listenAll_nonempty (A : Adapter σ) (cbs : List Nat) :
    ∀ s : CoreState σ, s.listeners ≠ [] →
      listenAll A cbs s
        = { s with listeners := cbs.foldl (fun l cb => addToSet cb l) s.listeners } := by
  induction cbs with
  | nil => intro s h; simp [listenAll]
  | cons cb cbs ih =>
      intro s h
      unfold listenAll at ih ⊢
      rw [List.foldl_cons, listen_nonempty A cb s h]
      rw [ih _ (addToSet_ne_nil cb s.listeners h)]
      simp

theorem listenAll_from_empty (A : Adapter σ) (cb : Nat) (cbs : List Nat)
    (s : CoreState σ) (hA : A.listener = true) (h : s.listeners = []) :
    listenAll A (cb :: cbs) s
      = { s with listeners := cbs.foldl (fun l c => addToSet c l) [cb],
                 subscribed := true, unsubActive := true,
                 installs := s.installs + 1 } := by
  unfold listenAll
  rw [List.foldl_cons, listen_first_native A cb s hA h]
  have := listenAll_nonempty A cbs
    ({ s with listeners := [cb], subscribed := true, unsubActive := true,
              installs := s.installs + 1 } : CoreState σ) (by simp)
  unfold listenAll at this
  rw [this]

theorem filter_ne_eq_erase (l : List Nat) (a : Nat) (h : l.Nodup) :
    l.filter (fun x => x != a) = l.erase a := by
  induction l with
  | nil => rfl
  | cons b t ih =>
      rw [List.nodup_cons] at h
      by_cases hb : b = a
      · subst hb
        rw [List.filter_cons]
        simp only [bne_self_eq_false, List.erase_cons_head, if_neg]
        · exact List.filter_eq_self.mpr (fun x hx => by
            simp only [bne_iff_ne, ne_eq]
            intro hxa
            exact h.1 (hxa ▸ hx))
      · rw [List.filter_cons, List.erase_cons_tail]
        · simp only [show (b != a) = true by simpa using hb, if_pos]
          rw [ih h.2]
        · simpa using hb

theorem unlisten_mid (cb : Nat) (s : CoreState σ)
    (h : s.listeners.filter (fun x => x != cb) ≠ []) :
    unlisten cb s = { s with listeners := s.listeners.filter (fun x => x != cb) } := by
  simp [unlisten, h]

theorem unlisten_last_active (cb : Nat) (s : CoreState σ)
    (h : s.listeners.filter (fun x => x != cb) = []) (ha : s.unsubActive = true) :
    unlisten cb s = { s with listeners := [], subscribed := false,
                             teardowns := s.teardowns + 1 } := by
  simp [unlisten, h, ha]

theorem unlistenAll_perm (us : List Nat) :
    ∀ s : CoreState σ, s.listeners.Nodup → s.listeners.Perm us → us ≠ [] →
      s.unsubActive = true →
      unlistenAll us s = { s with listeners := [], subscribed := false,
                                  teardowns := s.teardowns + 1 } := by
  induction us with
  | nil => intro s _ _ h _; exact absurd rfl h
  | cons u us ih =>
      intro s hnd hperm _ hact
      have herase : s.listeners.filter (fun x => x != u) = s.listeners.erase u :=
        filter_ne_eq_erase s.listeners u hnd
      have hperm2 : (s.listeners.erase u).Perm us := by
        have h1 := hperm.erase u
        simpa using h1
      cases us with
      | nil =>
          have hnil : s.listeners.erase u = [] := hperm2.eq_nil
          unfold unlistenAll
          simp only [List.foldl_cons, List.foldl_nil]
          rw [unlisten_last_active u s (by rw [herase, hnil]) hact]
      | cons v vs =>
          have hne2 : s.listeners.erase u ≠ [] := by
            intro hnil
            rw [hnil] at hperm2
            exact absurd hperm2.symm.eq_nil (by simp)
          unfold unlistenAll at ih ⊢
          simp only [List.foldl_cons] at ih ⊢
          rw [unlisten_mid u s (by rw [herase]; exact hne2)]
          have hr := ih ({ s with listeners := s.listeners.filter (fun x => x != u) } : CoreState σ)
            (by simp only [herase]; exact hnd.erase u)
            (by simp only [herase]; exact hperm2)
            (by simp)
            (by simpa using hact)
          simp only [List.foldl_cons] at hr
          rw [hr]

/-- C8 (amended): for a native-capability adapter, adding any non-empty list
of listeners installs the platform subscription exactly once (at the first
listen); calling each unsubscribe exactly once, in any order, invokes the
stored teardown exactly once, at the removal of the last listener, leaving
the set empty and the subscription inactive; a subsequent listen re-installs
exactly once; and calling the same unsubscribe twice does not shrink the
listener set below empty and leaves the subscription state inactive, but it
does invoke the stored teardown closure a second time (the teardown of the
browser adapter is idempotent in effect, so the subscription is not
double-removed, yet the invocation happens, contrary to the claim as
stated — see the counterexample). -/
theorem c8_subscription_lifecycle (A : Adapter σ) (a0 : σ) (cb : Nat) (cbs : List Nat)
    (us : List Nat) (cb2 : Nat) (hA : A.listener = true)
    (hperm : (listenAll A (cb :: cbs) (initCore A a0)).listeners.Perm us) :
    ((listenAll A (cb :: cbs) (initCore A a0)).installs = 1 ∧
     (listenAll A (cb :: cbs) (initCore A a0)).subscribed = true) ∧
    ((unlistenAll us (listenAll A (cb :: cbs) (initCore A a0))).installs = 1 ∧
     (unlistenAll us (listenAll A (cb :: cbs) (initCore A a0))).teardowns = 1 ∧
     (unlistenAll us (listenAll A (cb :: cbs) (initCore A a0))).listeners = [] ∧
     (unlistenAll us (listenAll A (cb :: cbs) (initCore A a0))).subscribed = false) ∧
    ((listen A cb2 (unlistenAll us (listenAll A (cb :: cbs) (initCore A a0)))).installs = 2 ∧
     (listen A cb2 (unlistenAll us (listenAll A (cb :: cbs) (initCore A a0)))).subscribed = true ∧
     (listen A cb2 (unlistenAll us (listenAll A (cb :: cbs) (initCore A a0)))).listeners = [cb2]) ∧
    ((unlisten cb2 (listen A cb2 (unlistenAll us (listenAll A (cb :: cbs) (initCore A a0))))).teardowns = 2 ∧
     (unlisten cb2 (listen A cb2 (unlistenAll us (listenAll A (cb :: cbs) (initCore A a0))))).listeners = [] ∧
     (unlisten cb2 (listen A cb2 (unlistenAll us (listenAll A (cb :: cbs) (initCore A a0))))).subscribed = false) ∧
    ((unlisten cb2 (unlisten cb2 (listen A cb2 (unlistenAll us (listenAll A (cb :: cbs) (initCore A a0)))))).teardowns = 3 ∧
     (unlisten cb2 (unlisten cb2 (listen A cb2 (unlistenAll us (listenAll A (cb :: cbs) (initCore A a0)))))).listeners = [] ∧
     (unlisten cb2 (unlisten cb2 (listen A cb2 (unlistenAll us (listenAll A (cb :: cbs) (initCore A a0)))))).subscribed = false ∧
     (unlisten cb2 (unlisten cb2 (listen A cb2 (unlistenAll us (listenAll A (cb :: cbs) (initCore A a0)))))).installs = 2) := by
  have h1 := listenAll_from_empty A cb cbs (initCore A a0) hA (by simp [initCore])
  have e1 : listenAll A (cb :: cbs) (initCore A a0)
      = ({ adapter := a0, loc := A.getLocation a0,
           listeners := cbs.foldl (fun l c => addToSet c l) [cb],
           blockers := [], queue := [], subscribed := true, unloadGuard := false,
           unsubActive := true, installs := 1, teardowns := 0,
           notifyLog := [] } : CoreState σ) := by
    rw [h1]
    rfl
  have hnd : (listenAll A (cb :: cbs) (initCore A a0)).listeners.Nodup := by
    rw [e1]
    exact setFold_nodup cbs [cb] (List.nodup_singleton cb)
  have hus : us ≠ [] := by
    intro hnil
    rw [hnil] at hperm
    have h0 := hperm.eq_nil
    rw [e1] at h0
    exact setFold_ne_nil cbs [cb] (by simp) h0
  have h2 := unlistenAll_perm us (listenAll A (cb :: cbs) (initCore A a0)) hnd hperm hus
    (by rw [e1])
  have e2 : unlistenAll us (listenAll A (cb :: cbs) (initCore A a0))
      = ({ adapter := a0, loc := A.getLocation a0, listeners := [],
           blockers := [], queue := [], subscribed := false, unloadGuard := false,
           unsubActive := true, installs := 1, teardowns := 1,
           notifyLog := [] } : CoreState σ) := by
    rw [h2, e1]
  have e3 : listen A cb2 (unlistenAll us (listenAll A (cb :: cbs) (initCore A a0)))
      = ({ adapter := a0, loc := A.getLocation a0, listeners := [cb2],
           blockers := [], queue := [], subscribed := true, unloadGuard := false,
           unsubActive := true, installs := 2, teardowns := 1,
           notifyLog := [] } : CoreState σ) := by
    rw [listen_first_native A cb2 _ hA (by rw [e2]), e2]
  have e4 : unlisten cb2 (listen A cb2 (unlistenAll us (listenAll A (cb :: cbs) (initCore A a0))))
      = ({ adapter := a0, loc := A.getLocation a0, listeners := [],
           blockers := [], queue := [], subscribed := false, unloadGuard := false,
           unsubActive := true, installs := 2, teardowns := 2,
           notifyLog := [] } : CoreState σ) := by
    rw [e3]
    simp [unlisten]
  have e5 : unlisten cb2 (unlisten cb2 (listen A cb2 (unlistenAll us (listenAll A (cb :: cbs) (initCore A a0)))))
      = ({ adapter := a0, loc := A.getLocation a0, listeners := [],
           blockers := [], queue := [], subscribed := false, unloadGuard := false,
           unsubActive := true, installs := 2, teardowns := 3,
           notifyLog := [] } : CoreState σ) := by
    rw [e4]
    simp [unlisten]
  exact ⟨⟨by rw [e1], by rw [e1]⟩,
         ⟨by rw [e2], by rw [e2], by rw [e2], by rw [e2]⟩,
         ⟨by rw [e3], by rw [e3], by rw [e3]⟩,
         ⟨by rw [e4], by rw [e4], by rw [e4]⟩,
         ⟨by rw [e5], by rw [e5], by rw [e5], by rw [e5]⟩⟩

/-- C8 counterexample: calling the same unsubscribe closure twice invokes
the stored teardown a second time (the teardown invocation count goes from 1
to 2), refuting the conjunct that a repeated unsubscribe does not tear the
subscription down a second time; the listener set and subscription state do
stay at empty and inactive. -/
theorem c8_counterexample :
    (unlisten 0 (listen urlAdapter 0 (initCore urlAdapter "/x".toList))).teardowns = 1 ∧
    (unlisten 0 (unlisten 0 (listen urlAdapter 0 (initCore urlAdapter "/x".toList)))).teardowns = 2 ∧
    (unlisten 0 (unlisten 0 (listen urlAdapter 0 (initCore urlAdapter "/x".toList)))).listeners = [] ∧
    (unlisten 0 (unlisten 0 (listen urlAdapter 0 (initCore urlAdapter "/x".toList)))).subscribed = false := by
  refine ⟨?_, ?_, ?_, ?_⟩ <;> decide

/-- C8 witness: the lifecycle statement with two listeners removed in reverse order on the url adapter. -/
theorem c8_witness :
    urlAdapter.listener = true ∧
    (listenAll urlAdapter (0 :: [1]) (initCore urlAdapter "/x".toList)).listeners.Perm [1, 0] ∧
    (((listenAll urlAdapter (0 :: [1]) (initCore urlAdapter "/x".toList)).installs = 1 ∧
      (listenAll urlAdapter (0 :: [1]) (initCore urlAdapter "/x".toList)).subscribed = true) ∧
     ((unlistenAll [1, 0] (listenAll urlAdapter (0 :: [1]) (initCore urlAdapter "/x".toList))).installs = 1 ∧
      (unlistenAll [1, 0] (listenAll urlAdapter (0 :: [1]) (initCore urlAdapter "/x".toList))).teardowns = 1 ∧
      (unlistenAll [1, 0] (listenAll urlAdapter (0 :: [1]) (initCore urlAdapter "/x".toList))).listeners = [] ∧
      (unlistenAll [1, 0] (listenAll urlAdapter (0 :: [1]) (initCore urlAdapter "/x".toList))).subscribed = false) ∧
     ((listen urlAdapter 5 (unlistenAll [1, 0] (listenAll urlAdapter (0 :: [1]) (initCore urlAdapter "/x".toList)))).installs = 2 ∧
      (listen urlAdapter 5 (unlistenAll [1, 0] (listenAll urlAdapter (0 :: [1]) (initCore urlAdapter "/x".toList)))).subscribed = true ∧
      (listen urlAdapter 5 (unlistenAll [1, 0] (listenAll urlAdapter (0 :: [1]) (initCore urlAdapter "/x".toList)))).listeners = [5]) ∧
     ((unlisten 5 (listen urlAdapter 5 (unlistenAll [1, 0] (listenAll urlAdapter (0 :: [1]) (initCore urlAdapter "/x".toList))))).teardowns = 2 ∧
      (unlisten 5 (listen urlAdapter 5 (unlistenAll [1, 0] (listenAll urlAdapter (0 :: [1]) (initCore urlAdapter "/x".toList))))).listeners = [] ∧
      (unlisten 5 (listen urlAdapter 5 (unlistenAll [1, 0] (listenAll urlAdapter (0 :: [1]) (initCore urlAdapter "/x".toList))))).subscribed = false) ∧
     ((unlisten 5 (unlisten 5 (listen urlAdapter 5 (unlistenAll [1, 0] (listenAll urlAdapter (0 :: [1]) (initCore urlAdapter "/x".toList)))))).teardowns = 3 ∧
      (unlisten 5 (unlisten 5 (listen urlAdapter 5 (unlistenAll [1, 0] (listenAll urlAdapter (0 :: [1]) (initCore urlAdapter "/x".toList)))))).listeners = [] ∧
      (unlisten 5 (unlisten 5 (listen urlAdapter 5 (unlistenAll [1, 0] (listenAll urlAdapter (0 :: [1]) (initCore urlAdapter "/x".toList)))))).subscribed = false ∧
      (unlisten 5 (unlisten 5 (listen urlAdapter 5 (unlistenAll [1, 0] (listenAll urlAdapter (0 :: [1]) (initCore urlAdapter "/x".toList)))))).installs = 2)) :=
  ⟨rfl, by decide,
    c8_subscription_lifecycle urlAdapter "/x".toList 0 [1] [1, 0] 5 rfl (by decide)⟩

/-- C3: on the memory history with initialEntries /a, /b and initialIndex 1,
back moves to /a and forward back to /b, and forward at the last index is a
no-op (clamped); but back at index 0 decrements the cursor to -1, outside
the valid range, because the source back does not clamp: the cursor leaves
[0, length-1] and the location is no longer well defined (entries[-1] is
undefined and parseLocation would throw in JS). -/
theorem c3_memory_back_unclamped :
    ((backOp memAdapter (initCore memAdapter
        (memInit ["/a".toList, "/b".toList] (some 1)))).loc.href = "/a".toList ∧
     (backOp memAdapter (initCore memAdapter
        (memInit ["/a".toList, "/b".toList] (some 1)))).adapter.index = 0) ∧
    ((forwardOp memAdapter (backOp memAdapter (initCore memAdapter
        (memInit ["/a".toList, "/b".toList] (some 1))))).loc.href = "/b".toList ∧
     (forwardOp memAdapter (backOp memAdapter (initCore memAdapter
        (memInit ["/a".toList, "/b".toList] (some 1))))).adapter.index = 1) ∧
    ((forwardOp memAdapter (forwardOp memAdapter (backOp memAdapter (initCore memAdapter
        (memInit ["/a".toList, "/b".toList] (some 1)))))).adapter
      = (forwardOp memAdapter (backOp memAdapter (initCore memAdapter
        (memInit ["/a".toList, "/b".toList] (some 1))))).adapter ∧
     (forwardOp memAdapter (forwardOp memAdapter (backOp memAdapter (initCore memAdapter
        (memInit ["/a".toList, "/b".toList] (some 1)))))).loc
      = (forwardOp memAdapter (backOp memAdapter (initCore memAdapter
        (memInit ["/a".toList, "/b".toList] (some 1))))).loc) ∧
    ((backOp memAdapter (backOp memAdapter (initCore memAdapter
        (memInit ["/a".toList, "/b".toList] (some 1))))).adapter.index = -1 ∧
     ¬ (0 ≤ (backOp memAdapter (backOp memAdapter (initCore memAdapter
        (memInit ["/a".toList, "/b".toList] (some 1))))).adapter.index)) := by
  refine ⟨⟨?_, ?_⟩, ⟨?_, ?_⟩, ⟨?_, ?_⟩, ⟨?_, ?_⟩⟩ <;> decide

/-- Issuing one operation on an idle unblocked history with a non-native adapter runs the task and recomputes the location. -/
theorem queueTask_empty_nonative (A : Adapter σ) (t : Task) (s : CoreState σ)
    (hA : A.listener = false) (hb : s.blockers = []) (hq : s.queue = []) :
    queueTask A t s = { s with adapter := runTask A t s.adapter,
                               loc := A.getLocation (runTask A t s.adapter),
                               queue := [],
                               notifyLog := s.notifyLog ++ [s.listeners] } := by
  simp [queueTask, tryFlush, hb, hq, flushEnd, execTask, hA, onUpdate]

/-- C9: memory push appends the path at the end of the entry list and
advances the cursor by exactly one; the cursor lands on the position of the
newly pushed entry exactly when it was at the last entry before the push, in
which case the resulting location href is the pushed path; after a back, a
push lands the cursor on the pre-existing older entry (href /b, not the
pushed /c) and the forward entries are not truncated. -/
theorem c9_memory_push_semantics (s : CoreState MemState) (p : List Char) (st : Nat)
    (hb : s.blockers = []) (hq : s.queue = []) :
    ((pushOp memAdapter p st s).adapter.entries = s.adapter.entries ++ [p] ∧
     (pushOp memAdapter p st s).adapter.index = s.adapter.index + 1) ∧
    (s.adapter.index = (s.adapter.entries.length : Int) - 1 →
      (pushOp memAdapter p st s).loc.href = p) ∧
    ((pushOp memAdapter p st s).adapter.index
        = ((pushOp memAdapter p st s).adapter.entries.length : Int) - 1
      ↔ s.adapter.index = (s.adapter.entries.length : Int) - 1) ∧
    ((pushOp memAdapter "/c".toList 0 (backOp memAdapter (initCore memAdapter
        (memInit ["/a".toList, "/b".toList] (some 1))))).loc.href = "/b".toList ∧
     (pushOp memAdapter "/c".toList 0 (backOp memAdapter (initCore memAdapter
        (memInit ["/a".toList, "/b".toList] (some 1))))).adapter.entries
        = ["/a".toList, "/b".toList, "/c".toList] ∧
     (pushOp memAdapter "/c".toList 0 (backOp memAdapter (initCore memAdapter
        (memInit ["/a".toList, "/b".toList] (some 1))))).adapter.index = 1) := by
  rw [pushOp, queueTask_empty_nonative memAdapter _ s rfl hb hq]
  refine ⟨⟨?_, ?_⟩, ?_, ?_, ?_⟩
  · simp [runTask, memAdapter]
  · simp [runTask, memAdapter]
  · intro h
    simp only [runTask, memAdapter, memEntry, parseLocation]
    rw [if_pos (by omega : (0:Int) ≤ s.adapter.index + 1)]
    have hx : s.adapter.index + 1 = (s.adapter.entries.length : Int) := by omega
    rw [hx, Int.toNat_natCast]
    rw [List.getD_append_right s.adapter.entries [p] [] s.adapter.entries.length le_rfl]
    simp
  · simp only [runTask, memAdapter, List.length_append, List.length_cons,
      List.length_nil]
    constructor
    · intro h; push_cast at h ⊢; omega
    · intro h; push_cast at h ⊢; omega
  · refine ⟨?_, ?_, ?_⟩ <;> decide

/-- C10: memory go(n) for every integer n delegates to the global
window.history.go (the ghost delegation log grows by n) and leaves the entry
list, the cursor and the current state object unchanged, hence the public
location unchanged. -/
theorem c10_memory_go_frame (n : Int) (s : CoreState MemState)
    (hb : s.blockers = []) (hq : s.queue = [])
    (hl : s.loc = memAdapter.getLocation s.adapter) :
    (goOp memAdapter n s).adapter.entries = s.adapter.entries ∧
    (goOp memAdapter n s).adapter.index = s.adapter.index ∧
    (goOp memAdapter n s).adapter.currentState = s.adapter.currentState ∧
    (goOp memAdapter n s).loc = s.loc ∧
    (goOp memAdapter n s).adapter.windowGoCalls = s.adapter.windowGoCalls ++ [n] := by
  rw [goOp, queueTask_empty_nonative memAdapter _ s rfl hb hq]
  refine ⟨?_, ?_, ?_, ?_, ?_⟩
  · simp [runTask, memAdapter]
  · simp [runTask, memAdapter]
  · simp [runTask, memAdapter]
  · rw [hl]
    rfl
  · simp [runTask, memAdapter]

/-- C9 witness: a push at the last entry yields the pushed href. -/
theorem c9_witness :
    (initCore memAdapter (memInit ["/a".toList] none)).blockers = [] ∧
    (initCore memAdapter (memInit ["/a".toList] none)).queue = [] ∧
    (initCore memAdapter (memInit ["/a".toList] none)).adapter.index
      = ((initCore memAdapter (memInit ["/a".toList] none)).adapter.entries.length : Int) - 1 ∧
    (pushOp memAdapter "/b".toList 0 (initCore memAdapter (memInit ["/a".toList] none))).loc.href
      = "/b".toList :=
  ⟨rfl, rfl, by decide,
    ((c9_memory_push_semantics (initCore memAdapter (memInit ["/a".toList] none))
      "/b".toList 0 rfl rfl).2.1) (by decide)⟩

/-- C10 witness: go(2) on a fresh memory history. -/
theorem c10_witness :
    (initCore memAdapter (memInit ["/a".toList] none)).blockers = [] ∧
    (initCore memAdapter (memInit ["/a".toList] none)).queue = [] ∧
    (initCore memAdapter (memInit ["/a".toList] none)).loc
      = memAdapter.getLocation (initCore memAdapter (memInit ["/a".toList] none)).adapter ∧
    ((goOp memAdapter 2 (initCore memAdapter (memInit ["/a".toList] none))).adapter.entries
      = (initCore memAdapter (memInit ["/a".toList] none)).adapter.entries ∧
     (goOp memAdapter 2 (initCore memAdapter (memInit ["/a".toList] none))).adapter.index
      = (initCore memAdapter (memInit ["/a".toList] none)).adapter.index ∧
     (goOp memAdapter 2 (initCore memAdapter (memInit ["/a".toList] none))).adapter.currentState
      = (initCore memAdapter (memInit ["/a".toList] none)).adapter.currentState ∧
     (goOp memAdapter 2 (initCore memAdapter (memInit ["/a".toList] none))).loc
      = (initCore memAdapter (memInit ["/a".toList] none)).loc ∧
     (goOp memAdapter 2 (initCore memAdapter (memInit ["/a".toList] none))).adapter.windowGoCalls
      = (initCore memAdapter (memInit ["/a".toList] none)).adapter.windowGoCalls ++ [2]) := by
  refine ⟨rfl, rfl, rfl, ?_⟩
  exact c10_memory_go_frame 2 (initCore memAdapter (memInit ["/a".toList] none)) rfl rfl rfl

end Router
